import Mathlib

/-!
Verification of the polymarket 15-minute BTC agent core.

Shallow embedding of the repository sources into Lean 4:
  * `paper_trading.py`  — paper-trade simulation and settlement economics;
  * `risk/guard.py`     — the risk guard (per-round trade cap, global cooldown);
  * `strategies/btc_updown.py` — the composite strategy and Kelly-style sizing;
  * `decision.py`       — the decision router;
  * `main.py`           — the per-tick gate pipeline and `settle_round`.

Conventions.  Python floats are modelled as exact rationals (`ℚ`); Python
strings as `String`.  A value that Python guards with an
`isinstance(x, (int, float))` check is modelled as `Option ℚ` (`none` means
the key is absent or holds `None`).  Attribute access on a missing dataclass
field — which raises `AttributeError` in Python — is modelled by `Except`.
Python `round(x, n)` (round-half-to-even) is modelled by `pyRound`.
-/

/-- Python `round(x, ndigits)`: scale by `10^n` and round half to even. -/
def pyRound (x : ℚ) (n : ℕ) : ℚ :=
  let m : ℚ := (10 : ℚ) ^ n
  let y := x * m
  let fl : ℤ := ⌊y⌋
  let frac := y - fl
  let r : ℤ :=
    if frac < 1/2 then fl
    else if 1/2 < frac then fl + 1
    else if fl % 2 = 0 then fl else fl + 1
  (r : ℚ) / m

/-- The `_clamp(value, low, high)` helper shared by `main.py` and
`strategies/btc_updown.py`: `max(low, min(high, value))`. -/
def pyClamp (value low high : ℚ) : ℚ :=
  max low (min high value)

/-- Python whitespace characters recognised by `str.strip()` (the ASCII ones;
the outcome labels of this program are ASCII). -/
def pyCharIsSpace (c : Char) : Bool :=
  c = ' ' ∨ c = '\t' ∨ c = '\n' ∨ c = '\x0d'

/-- Python `str.lower()` on one ASCII character. -/
def pyCharLower (c : Char) : Char :=
  if 65 ≤ c.toNat ∧ c.toNat ≤ 90 then Char.ofNat (c.toNat + 32) else c

/-- Python `market_outcome.strip().lower()` from
`paper_trading.evaluate_paper_trade`. -/
def pyStripLower (s : String) : String :=
  ⟨(((s.data.dropWhile pyCharIsSpace).reverse.dropWhile pyCharIsSpace).reverse).map pyCharLower⟩

/-- Appending on a `collections.deque(maxlen = n)`: the oldest entries are
evicted once the length exceeds `n`. -/
def dequeAppend {α : Type} (maxlen : ℕ) (l : List α) (a : α) : List α :=
  let l2 := l ++ [a]
  l2.drop (l2.length - maxlen)

/-! ## paper_trading.py -/

/-- Embeds `paper_trading.PaperTradeResult` (frozen dataclass).  Note the exact field
list of the source: it has `adverse_selection_bps_applied` but **no**
`gross_pnl_usd` and no `pnl_usd` field. -/
structure PaperTradeResult where
  outcome : String
  market_outcome : String
  return_pct : ℚ
  gross_return_pct : ℚ
  total_cost_pct : ℚ
  gas_fees_usd : ℚ
  adverse_selection_bps_applied : ℚ
  deriving DecidableEq, Repr

/-- Embeds `paper_trading.PaperTradeSimulationConfig` with the source defaults. -/
structure PaperTradeSimulationConfig where
  entry_slippage_bps : ℚ := 50
  dynamic_slippage_enabled : Bool := false
  dynamic_slippage_edge_factor_bps : ℚ := 25
  dynamic_slippage_confidence_factor_bps : ℚ := 20
  dynamic_slippage_expiry_factor_bps : ℚ := 30
  max_slippage_bps : ℚ := 200
  gas_fee_usd_per_side : ℚ := 1/20
  adverse_selection_bps : ℚ := 30
  min_notional_usd : ℚ := 1
  deriving DecidableEq, Repr

/-- Embeds `paper_trading.compute_effective_entry_slippage_bps`. -/
def compute_effective_entry_slippage_bps (simulation : PaperTradeSimulationConfig)
    (edge_strength confidence : Option ℚ) (seconds_to_close round_seconds : Option ℤ) : ℚ :=
  let effective := simulation.entry_slippage_bps
  if simulation.dynamic_slippage_enabled = false then
    min (max effective 0) simulation.max_slippage_bps
  else
    let edge_term := max 0 (edge_strength.getD 0) * simulation.dynamic_slippage_edge_factor_bps
    let conf := confidence.getD 0
    let conf_term := max 0 (conf - 1/2) * 2 * simulation.dynamic_slippage_confidence_factor_bps
    let expiry_term :=
      match seconds_to_close, round_seconds with
      | some stc, some rs =>
        if 0 < rs then
          let bounded_seconds := min (max stc 0) rs
          let closeness := 1 - ((bounded_seconds : ℚ) / (rs : ℚ))
          closeness * simulation.dynamic_slippage_expiry_factor_bps
        else 0
      | _, _ => 0
    min (max (effective + edge_term + conf_term + expiry_term) 0) simulation.max_slippage_bps

/-- Embeds `paper_trading.estimate_expected_edge_bps`. -/
def estimate_expected_edge_bps (edge_strength confidence : Option ℚ)
    (edge_strength_to_bps : ℚ) : ℚ :=
  let edge := max 0 (edge_strength.getD 0)
  if edge ≤ 0 then 0
  else
    let conf := min (max (confidence.getD 0) 0) 1
    let confidence_weight := max 0 ((conf - 1/2) * 2)
    edge * max 0 edge_strength_to_bps * confidence_weight

/-- Embeds `paper_trading.estimate_total_cost_bps`.  The source returns
`float("inf")` when `notional_usd <= 0`; `none` stands for that infinity. -/
def estimate_total_cost_bps (notional_usd : ℚ) (simulation : PaperTradeSimulationConfig)
    (effective_entry_slippage_bps : ℚ) : Option ℚ :=
  if notional_usd ≤ 0 then none
  else
    let gas_fees_usd := simulation.gas_fee_usd_per_side * 2
    let gas_cost_bps := (gas_fees_usd / notional_usd) * 10000
    some (max 0 effective_entry_slippage_bps + max 0 simulation.adverse_selection_bps
      + max 0 gas_cost_bps)

/-- Embeds `paper_trading.apply_entry_execution`.  The optional `slippage_bps`
argument overrides `simulation.entry_slippage_bps` when present. -/
def apply_entry_execution (action : String) (reference_price : ℚ)
    (simulation : PaperTradeSimulationConfig) (slippage_bps : Option ℚ) : ℚ :=
  if reference_price ≤ 0 then reference_price
  else
    let bps := slippage_bps.getD simulation.entry_slippage_bps
    let slipRatio := bps / 10000
    if action = "BUY_YES" then min 1 (reference_price * (1 + slipRatio))
    else if action = "BUY_NO" then max 0 (reference_price * (1 + slipRatio))
    else reference_price

/-- The repeated invalid-result literal of `evaluate_paper_trade`: outcome
`"invalid"`, the raw `market_outcome` echoed back, every numeric field `0`. -/
def invalidPaperTradeResult (market_outcome : String) : PaperTradeResult :=
  { outcome := "invalid"
    market_outcome := market_outcome
    return_pct := 0
    gross_return_pct := 0
    total_cost_pct := 0
    gas_fees_usd := 0
    adverse_selection_bps_applied := 0 }

/-- Embeds `paper_trading.evaluate_paper_trade`.  Total (the Python source raises on
no path); the source hard-codes `adverse_selection_pct = 0.0` and
`adverse_selection_bps_applied = 0.0` on the settled path. -/
def evaluate_paper_trade (action : String) (entry_price : ℚ) (market_outcome : String)
    (notional_usd : ℚ) (simulation : PaperTradeSimulationConfig) : PaperTradeResult :=
  if entry_price ≤ 0 ∨ 1 ≤ entry_price then invalidPaperTradeResult market_outcome
  else if notional_usd < simulation.min_notional_usd then invalidPaperTradeResult market_outcome
  else
    let normalized_outcome := pyStripLower market_outcome
    if ¬ (normalized_outcome = "yes" ∨ normalized_outcome = "no" ∨ normalized_outcome = "push")
    then invalidPaperTradeResult market_outcome
    else if normalized_outcome ≠ "push" ∧ action ≠ "BUY_YES" ∧ action ≠ "BUY_NO"
    then invalidPaperTradeResult market_outcome
    else
      let payout_per_share : ℚ :=
        if normalized_outcome = "push" then entry_price
        else if action = "BUY_YES" then (if normalized_outcome = "yes" then 1 else 0)
        else (if normalized_outcome = "no" then 1 else 0)
      let raw_return := (payout_per_share - entry_price) / entry_price
      let gross_return := raw_return
      let gas_fees_usd := simulation.gas_fee_usd_per_side * 2
      let gas_cost_pct := gas_fees_usd / max notional_usd (1/1000000000)
      let adverse_selection_pct : ℚ := 0
      let adverse_selection_bps_applied : ℚ := 0
      let total_cost_pct := gas_cost_pct + adverse_selection_pct
      let net_return := gross_return - total_cost_pct
      let outcome := if 0 < net_return then "win" else if net_return < 0 then "loss" else "flat"
      { outcome := outcome
        market_outcome := normalized_outcome
        return_pct := net_return * 100
        gross_return_pct := gross_return * 100
        total_cost_pct := total_cost_pct * 100
        gas_fees_usd := gas_fees_usd
        adverse_selection_bps_applied := adverse_selection_bps_applied }

/-! ## risk/limits.py and risk/guard.py -/

/-- Embeds `risk.limits.RiskLimits` with the source defaults. -/
structure RiskLimits where
  max_trades_per_round : ℤ := 2
  trade_cooldown_seconds : ℚ := 8
  deriving DecidableEq, Repr

/-- The reason strings produced by `RiskGuard.evaluate`.  The source renders
them as `"trade_cooldown:{remaining:.2f}s"`, `"max_trades_per_round"` and
`"ok"`; the cooldown constructor carries the two-decimal-rounded remaining
seconds interpolated into the string. -/
inductive RiskReason where
  | trade_cooldown (remaining_rounded : ℚ)
  | maxTradesPerRound
  | ok
  deriving DecidableEq, Repr

/-- Embeds `risk.guard.RiskCheckResult`. -/
structure RiskCheckResult where
  allowed : Bool
  reason : RiskReason
  deriving DecidableEq, Repr

/-- The mutable state of `risk.guard.RiskGuard`: the per-round execution
counters (a dict, here an association list) and the timestamp of the last
recorded execution. -/
structure RiskGuardState where
  trade_count_by_round : List (ℤ × ℕ)
  last_trade_ts : Option ℚ
  deriving DecidableEq, Repr

/-- The freshly constructed guard: empty counters, no last execution. -/
def RiskGuardState.initial : RiskGuardState :=
  { trade_count_by_round := [], last_trade_ts := none }

/-- Python `self._trade_count_by_round.get(round_id, 0)`. -/
def RiskGuardState.countFor (st : RiskGuardState) (round_id : ℤ) : ℕ :=
  match st.trade_count_by_round.lookup round_id with
  | some n => n
  | none => 0

/-- Dict update `d[k] = v` on the association-list model. -/
def assocSet (l : List (ℤ × ℕ)) (k : ℤ) (v : ℕ) : List (ℤ × ℕ) :=
  match l with
  | [] => [(k, v)]
  | (k2, v2) :: rest => if k2 = k then (k, v) :: rest else (k2, v2) :: assocSet rest k v

/-- Embeds `risk.guard.RiskGuard.evaluate(round_id, now_ts)`: global cooldown first,
then the per-round cap. -/
def RiskGuard.evaluate (limits : RiskLimits) (st : RiskGuardState)
    (round_id : ℤ) (now_ts : ℚ) : RiskCheckResult :=
  let cooldownHit : Option ℚ :=
    match st.last_trade_ts with
    | none => none
    | some last =>
      let elapsed := now_ts - last
      if elapsed < limits.trade_cooldown_seconds
      then some (limits.trade_cooldown_seconds - elapsed)
      else none
  match cooldownHit with
  | some remaining => { allowed := false, reason := .trade_cooldown (pyRound remaining 2) }
  | none =>
    if limits.max_trades_per_round ≤ (st.countFor round_id : ℤ)
    then { allowed := false, reason := .maxTradesPerRound }
    else { allowed := true, reason := .ok }

/-- Embeds `risk.guard.RiskGuard.record_execution(round_id, now_ts)`. -/
def RiskGuard.record_execution (st : RiskGuardState) (round_id : ℤ) (now_ts : ℚ) :
    RiskGuardState :=
  { trade_count_by_round := assocSet st.trade_count_by_round round_id (st.countFor round_id + 1)
    last_trade_ts := some now_ts }

/-! ## strategies/btc_updown.py -/

/-- Embeds `strategies.btc_updown.SignalScore` (frozen dataclass). -/
structure SignalScore where
  score : ℚ
  confidence : ℚ
  reason : String
  available : Bool := true
  deriving DecidableEq, Repr

/-- Embeds `strategies.btc_updown.BTCUpdownConfig` with the source defaults. -/
structure BTCUpdownConfig where
  min_confidence_to_trade : ℚ := 7/20
  min_score_to_trade : ℚ := 1/5
  max_entry_price : ℚ := 17/20
  kelly_fraction : ℚ := 3/10
  max_trade_size_usd : ℚ := 100
  min_trade_size_usd : ℚ := 1
  weight_time_decay : ℚ := 1/5
  weight_orderbook_imbalance : ℚ := 1/5
  weight_trade_momentum : ℚ := 3/20
  weight_btc_price_movement : ℚ := 1/5
  weight_price_inefficiency : ℚ := 1/5
  weight_feed_comparison : ℚ := 1/20
  deriving DecidableEq, Repr

/-- The per-tick feature state handed to the strategies.  The Python source
passes an untyped dict; a key that is absent or holds a non-numeric value
(every read is guarded by an isinstance or None check) is `none` here. -/
structure StrategyState where
  last_price : Option ℚ := none
  return_short : Option ℚ := none
  zscore : Option ℚ := none
  seconds_to_close : Option ℚ := none
  round_seconds : Option ℚ := none
  polymarket_yes_price : Option ℚ := none
  polymarket_no_price : Option ℚ := none
  orderbook_imbalance : Option ℚ := none
  trade_momentum : Option ℚ := none
  feed_divergence_bps : Option ℚ := none
  deriving DecidableEq, Repr

/-- Embeds `BTCUpdownStrategy._signal_time_decay`. -/
def signal_time_decay (state : StrategyState) : SignalScore :=
  match state.seconds_to_close, state.round_seconds with
  | some seconds_to_close, some round_seconds =>
    match state.return_short with
    | some movement =>
      let closeness := 1 - pyClamp (seconds_to_close / max round_seconds 1) 0 1
      if closeness < 3/5 then
        { score := 0, confidence := 3/20, reason := "outside_decay_window" }
      else
        { score := pyClamp (movement * 80) (-1) 1
          confidence := pyClamp (3/10 + (1/2) * closeness) 0 1
          reason := "time_decay_active" }
    | none => { score := 0, confidence := 1/10, reason := "missing_btc_movement", available := false }
  | _, _ => { score := 0, confidence := 1/10, reason := "missing_time_context", available := false }

/-- Embeds `BTCUpdownStrategy._signal_orderbook_imbalance`. -/
def signal_orderbook_imbalance (state : StrategyState) : SignalScore :=
  match state.orderbook_imbalance with
  | none => { score := 0, confidence := 1/10, reason := "orderbook_unavailable", available := false }
  | some imbalance =>
    let score := pyClamp imbalance (-1) 1
    { score := score
      confidence := pyClamp (3/10 + |score| * (1/2)) 0 1
      reason := "orderbook_imbalance" }

/-- Embeds `BTCUpdownStrategy._signal_trade_momentum`. -/
def signal_trade_momentum (state : StrategyState) : SignalScore :=
  match state.trade_momentum with
  | none => { score := 0, confidence := 1/10, reason := "trade_flow_unavailable", available := false }
  | some momentum =>
    let score := pyClamp momentum (-1) 1
    { score := score
      confidence := pyClamp (1/4 + |score| * (3/5)) 0 1
      reason := "trade_momentum" }

/-- Embeds `BTCUpdownStrategy._signal_btc_price_movement`. -/
def signal_btc_price_movement (state : StrategyState) : SignalScore :=
  match state.return_short with
  | none => { score := 0, confidence := 1/10, reason := "missing_return_short", available := false }
  | some short_return =>
    if |short_return| < 1/10000 then
      { score := 0, confidence := 3/20, reason := "movement_noise" }
    else
      { score := pyClamp (short_return * 50) (-1) 1
        confidence := pyClamp (3/10 + |short_return| * 250) 0 (19/20)
        reason := "btc_price_movement" }

/-- Embeds `BTCUpdownStrategy._signal_price_inefficiency`. -/
def signal_price_inefficiency (state : StrategyState) : SignalScore :=
  match state.zscore, state.polymarket_yes_price with
  | some zscore, some yes_price =>
    let fair_yes := pyClamp (1/2 - zscore * (2/25)) (1/20) (19/20)
    let mispricing := fair_yes - yes_price
    if |mispricing| < 1/20 then
      { score := 0, confidence := 3/20, reason := "mispricing_small" }
    else
      { score := pyClamp (mispricing * 5) (-1) 1
        confidence := pyClamp (1/4 + |mispricing| * 2) 0 (19/20)
        reason := "price_inefficiency" }
  | _, _ =>
    { score := 0, confidence := 1/10, reason := "missing_inefficiency_inputs", available := false }

/-- Embeds `BTCUpdownStrategy._signal_feed_comparison`. -/
def signal_feed_comparison (state : StrategyState) : SignalScore :=
  match state.feed_divergence_bps with
  | none => { score := 0, confidence := 1/5, reason := "single_feed_mode", available := false }
  | some divergence_bps =>
    if 5 < divergence_bps then
      { score := 0, confidence := 1/20, reason := "feeds_diverged" }
    else
      match state.return_short with
      | none => { score := 0, confidence := 1/5, reason := "missing_direction" }
      | some movement =>
        let score : ℚ := if 0 < movement then 3/20 else if movement < 0 then -3/20 else 0
        { score := score, confidence := 3/4, reason := "feeds_agree" }

/-- The six signals in the insertion order of the `signals` dict built by
`evaluate_shadow`, paired with their configured weights (the same order the
`weights` dict of `_calculate_composite` is iterated in). -/
def weightedSignals (config : BTCUpdownConfig) (state : StrategyState) :
    List (String × ℚ × SignalScore) :=
  [ ("time_decay", config.weight_time_decay, signal_time_decay state)
  , ("orderbook_imbalance", config.weight_orderbook_imbalance, signal_orderbook_imbalance state)
  , ("trade_momentum", config.weight_trade_momentum, signal_trade_momentum state)
  , ("btc_price_movement", config.weight_btc_price_movement, signal_btc_price_movement state)
  , ("price_inefficiency", config.weight_price_inefficiency, signal_price_inefficiency state)
  , ("feed_comparison", config.weight_feed_comparison, signal_feed_comparison state) ]

/-- Accumulator of `_calculate_composite`: weight, score and confidence
totals, plus the directional and agreeing counters. -/
structure CompositeAcc where
  weight_total : ℚ := 0
  score_total : ℚ := 0
  conf_total : ℚ := 0
  directional : ℤ := 0
  agreeing : ℤ := 0

/-- Embeds `BTCUpdownStrategy._calculate_composite`. -/
def calculate_composite (config : BTCUpdownConfig) (state : StrategyState) : ℚ × ℚ :=
  let acc := (weightedSignals config state).foldl
    (fun (acc : CompositeAcc) entry =>
      let w := entry.2.1
      let signal := entry.2.2
      let acc :=
        { acc with
          score_total := acc.score_total + signal.score * w
          conf_total := acc.conf_total + signal.confidence * w
          weight_total := acc.weight_total + w }
      if 1/10 < signal.score then
        { acc with directional := acc.directional + 1, agreeing := acc.agreeing + 1 }
      else if signal.score < -(1/10) then
        { acc with directional := acc.directional + 1, agreeing := acc.agreeing - 1 }
      else acc)
    {}
  if acc.weight_total ≤ 0 then (0, 0)
  else
    let score := acc.score_total / acc.weight_total
    let confidence := acc.conf_total / acc.weight_total
    let confidence :=
      if 0 < acc.directional then
        let agreement_ratio := (|acc.agreeing| : ℚ) / (acc.directional : ℚ)
        pyClamp (confidence + (3/20) * agreement_ratio) 0 1
      else confidence
    (pyClamp score (-1) 1, pyClamp confidence 0 1)

/-- Embeds `BTCUpdownStrategy._buy_no_share` over the trailing-action deque. -/
def buy_no_share (recent_actions : List String) : ℚ :=
  if recent_actions = [] then 0
  else ((recent_actions.filter (fun a => a = "BUY_NO")).length : ℚ) / (recent_actions.length : ℚ)

/-- Embeds `BTCUpdownStrategy._calculate_position_size`. -/
def calculate_position_size (config : BTCUpdownConfig) (confidence entry_price : ℚ) : ℚ :=
  if entry_price ≤ 0 ∨ 1 ≤ entry_price then 0
  else
    let p := pyClamp confidence (1/100) (99/100)
    let q := 1 - p
    let b := (1 - entry_price) / entry_price
    if b ≤ 0 then 0
    else
      let kelly := ((p * b) - q) / b
      let kelly := max 0 kelly * config.kelly_fraction
      min config.max_trade_size_usd (kelly * config.max_trade_size_usd)

/-- The candidate dict returned by `BTCUpdownStrategy.evaluate_shadow`. -/
structure ShadowCandidate where
  strategy : String
  action : String
  confidence : ℚ
  score : ℚ
  price : Option ℚ
  size_usd : ℚ
  reason : String
  signals : List (String × SignalScore)
  deriving DecidableEq, Repr

/-- Embeds `BTCUpdownStrategy.evaluate_shadow`.  Returns the optional candidate and
the updated `_recent_actions` deque (appended to only when a candidate is
produced). -/
def evaluate_shadow (config : BTCUpdownConfig) (recent_actions : List String)
    (state : StrategyState) : Option ShadowCandidate × List String :=
  let signals := weightedSignals config state
  let sc := calculate_composite config state
  let composite_score := sc.1
  let composite_confidence := sc.2
  let action := if 0 < composite_score then "BUY_YES" else "BUY_NO"
  let required_score :=
    if action = "BUY_NO" ∧ 3/4 < buy_no_share recent_actions
    then config.min_score_to_trade + 1/20
    else config.min_score_to_trade
  if composite_confidence < config.min_confidence_to_trade then (none, recent_actions)
  else if |composite_score| < required_score then (none, recent_actions)
  else
    let entry_price :=
      if action = "BUY_YES" then state.polymarket_yes_price else state.polymarket_no_price
    if (match entry_price with
        | some p => decide (config.max_entry_price < p)
        | none => false) then (none, recent_actions)
    else
      let size_usd := calculate_position_size config composite_confidence (entry_price.getD (1/2))
      if size_usd < config.min_trade_size_usd then (none, recent_actions)
      else
        let recent2 := dequeAppend 40 recent_actions action
        ( some
            { strategy := "btc_updown"
              action := action
              confidence := pyRound composite_confidence 4
              score := pyRound composite_score 4
              price := entry_price
              size_usd := pyRound size_usd 2
              reason := "composite_signal"
              signals := signals.map (fun entry =>
                ( entry.1
                , { score := pyRound entry.2.2.score 4
                    confidence := pyRound entry.2.2.confidence 4
                    reason := entry.2.2.reason
                    available := entry.2.2.available } )) }
        , recent2 )

/-! ## models.py, strategies/momentum.py, strategies/mean_reversion.py -/

/-- Embeds `models.Tick`. -/
structure Tick where
  ts : ℚ
  symbol : String
  price : ℚ
  size : ℚ := 1
  deriving DecidableEq, Repr

/-- Embeds `strategies.base.StrategyDecision`. -/
structure StrategyDecision where
  action : String
  confidence : ℚ
  reason : String
  deriving DecidableEq, Repr

/-- Embeds `strategies.momentum.MomentumStrategy.evaluate`. -/
def MomentumStrategy.evaluate (state : StrategyState) : Option StrategyDecision :=
  match state.return_short with
  | none => none
  | some short =>
    if 3/2500 < short then
      some { action := "BUY_YES", confidence := 31/50, reason := "short momentum up" }
    else if short < -(3/2500) then
      some { action := "BUY_NO", confidence := 31/50, reason := "short momentum down" }
    else none

/-- Embeds `strategies.mean_reversion.MeanReversionStrategy.evaluate`. -/
def MeanReversionStrategy.evaluate (state : StrategyState) : Option StrategyDecision :=
  match state.zscore with
  | none => none
  | some zscore =>
    if 7/4 < zscore then
      some { action := "BUY_NO", confidence := 57/100, reason := "price stretched high" }
    else if zscore < -(7/4) then
      some { action := "BUY_YES", confidence := 57/100, reason := "price stretched low" }
    else none

/-! ## decision.py -/

/-- Embeds `statistics.fmean`. -/
def fmean (l : List ℚ) : ℚ := l.sum / (l.length : ℚ)

/-- Embeds `statistics.pstdev` squared: the population variance.  `pstdev` itself is
the (generally irrational) square root of this value; the development keeps
the square root abstract as a parameter `sqrtQ` and every theorem below holds
for all of its interpretations. -/
def pvariance (l : List ℚ) : ℚ :=
  ((l.map (fun x => (x - fmean l) ^ 2)).sum) / (l.length : ℚ)

/-- The state dict built by `DecisionRouter._build_state` for one tick, given
the already-updated price deque.  `sqrtQ` interprets the square root taken by
`statistics.pstdev`. -/
def build_state (sqrtQ : ℚ → ℚ) (prices : List ℚ) (tick : Tick) : StrategyState :=
  let return_short : Option ℚ :=
    if 8 ≤ prices.length then
      match prices.getLast?, prices.get? (prices.length - 8) with
      | some p_now, some p_then => if p_then ≠ 0 then some (p_now / p_then - 1) else none
      | _, _ => none
    else none
  let zscore : Option ℚ :=
    if 30 ≤ prices.length then
      let window := prices.drop (prices.length - 30)
      let mean := fmean window
      let sigma := sqrtQ (pvariance window)
      if 0 < sigma then some ((tick.price - mean) / sigma) else none
    else none
  { last_price := some tick.price, return_short := return_short, zscore := zscore }

/-- The `extra_state` dict merged into the built state by
`DecisionRouter.on_tick` via `state.update(extra_state)`.  An outer `none`
means the key is absent from `extra_state` (the built value survives); `some
none` means the key is present and holds `None` (it overwrites the built
value with a missing one, exactly as `dict.update` does). -/
structure ExtraState where
  last_price : Option (Option ℚ) := none
  return_short : Option (Option ℚ) := none
  zscore : Option (Option ℚ) := none
  seconds_to_close : Option (Option ℚ) := none
  round_seconds : Option (Option ℚ) := none
  polymarket_yes_price : Option (Option ℚ) := none
  polymarket_no_price : Option (Option ℚ) := none
  orderbook_imbalance : Option (Option ℚ) := none
  trade_momentum : Option (Option ℚ) := none
  feed_divergence_bps : Option (Option ℚ) := none
  deriving DecidableEq, Repr

/-- One field of `dict.update`: an extra entry overrides the built one. -/
def mergeField (extra : Option (Option ℚ)) (built : Option ℚ) : Option ℚ :=
  match extra with
  | some v => v
  | none => built

/-- Embeds `state.update(extra_state)` over the whole feature state. -/
def mergeState (built : StrategyState) (extra : ExtraState) : StrategyState :=
  { last_price := mergeField extra.last_price built.last_price
    return_short := mergeField extra.return_short built.return_short
    zscore := mergeField extra.zscore built.zscore
    seconds_to_close := mergeField extra.seconds_to_close built.seconds_to_close
    round_seconds := mergeField extra.round_seconds built.round_seconds
    polymarket_yes_price := mergeField extra.polymarket_yes_price built.polymarket_yes_price
    polymarket_no_price := mergeField extra.polymarket_no_price built.polymarket_no_price
    orderbook_imbalance := mergeField extra.orderbook_imbalance built.orderbook_imbalance
    trade_momentum := mergeField extra.trade_momentum built.trade_momentum
    feed_divergence_bps := mergeField extra.feed_divergence_bps built.feed_divergence_bps }

/-- The payload dict of a decision returned by the classic strategy loop of
`DecisionRouter.on_tick`. -/
structure SimplePayload where
  strategy : String
  confidence : ℚ
  reason : String
  price : ℚ
  tick_ts : ℚ
  deriving DecidableEq, Repr

/-- The decision context returned by `DecisionRouter.on_tick`: either the
shadow candidate dict of the composite strategy or the payload dict built for
a classic strategy. -/
inductive DecisionPayload where
  | shadow (c : ShadowCandidate)
  | simple (p : SimplePayload)
  deriving DecidableEq, Repr

/-- Embeds `decision.DecisionRouter` (constructor defaults of the source). -/
structure DecisionRouter where
  prices : List ℚ := []
  strategy_mode : String := "classic"
  btc_updown_shadow_mode : Bool := true
  btc_updown_live_enabled : Bool := false
  btc_updown_config : BTCUpdownConfig := {}
  btc_recent_actions : List String := []
  deriving DecidableEq, Repr

/-- The classic half of `DecisionRouter.on_tick`: iterate the fixed strategy
list `[MomentumStrategy(), MeanReversionStrategy()]` and return the first
decision. -/
def classicDecision (state : StrategyState) (tick : Tick) :
    Option (String × DecisionPayload) :=
  match MomentumStrategy.evaluate state with
  | some d =>
    some (d.action, .simple
      { strategy := "momentum", confidence := d.confidence, reason := d.reason,
        price := tick.price, tick_ts := tick.ts })
  | none =>
    match MeanReversionStrategy.evaluate state with
    | some d =>
      some (d.action, .simple
        { strategy := "mean_reversion", confidence := d.confidence, reason := d.reason,
          price := tick.price, tick_ts := tick.ts })
    | none => none

/-- Embeds `DecisionRouter.on_tick`: update the price deque, build and merge the
feature state, run the composite strategy in shadow when enabled, and either
feed the candidate to live trading (btc_updown mode with the live flag) or
fall through to the classic strategy loop.  Returns the decision and the
updated router. -/
def on_tick (sqrtQ : ℚ → ℚ) (r : DecisionRouter) (tick : Tick) (extra : ExtraState) :
    Option (String × DecisionPayload) × DecisionRouter :=
  let prices2 := dequeAppend 240 r.prices tick.price
  let state := mergeState (build_state sqrtQ prices2 tick) extra
  let shadowStep : Option ShadowCandidate × List String :=
    if r.btc_updown_shadow_mode ∨ r.strategy_mode = "btc_updown"
    then evaluate_shadow r.btc_updown_config r.btc_recent_actions state
    else (none, r.btc_recent_actions)
  let r2 := { r with prices := prices2, btc_recent_actions := shadowStep.2 }
  let live : Option (String × DecisionPayload) :=
    match shadowStep.1 with
    | some c =>
      if r.strategy_mode = "btc_updown" ∧ r.btc_updown_live_enabled
      then some (c.action, .shadow c)
      else none
    | none => none
  match live with
  | some d => (some d, r2)
  | none =>
    if r.strategy_mode = "btc_updown" then (none, r2)
    else (classicDecision state tick, r2)

/-! ## main.py — settlement -/

/-- Embeds `main._market_outcome_from_btc_prices`. -/
def market_outcome_from_btc_prices (round_open_price round_close_price : ℚ) : String :=
  if round_open_price < round_close_price then "yes"
  else if round_close_price < round_open_price then "no"
  else "push"

/-- A Python exception escaping a modelled function. -/
inductive PyError where
  | attributeError (missing_attribute : String)
  deriving DecidableEq, Repr

/-- One open paper trade (the `trade_entry` dict appended to
`open_paper_trades` by `run`).  Only the fields read by `settle_round` are
modelled; the dict additionally carries decision/odds metadata that the
closing record echoes verbatim and that no claim depends on. -/
structure OpenTrade where
  id : String
  round_id : ℤ
  action : String
  entry_price : ℚ
  entry_ts : ℚ
  notional_usd : Option ℚ := none
  btc_price_to_beat : Option ℚ := none
  btc_price_to_beat_source : Option String := none
  deriving DecidableEq, Repr

/-- Per-UTC-day running totals kept in `daily_trade_totals`. -/
structure DailyTotals where
  closed_trades : ℕ := 0
  wins : ℕ := 0
  losses : ℕ := 0
  invalid : ℕ := 0
  realized_pnl_usd : ℚ := 0
  deriving DecidableEq, Repr

/-- Dict update `d[k] = v` on an association-list model of a Python dict. -/
def assocSetD {β : Type} (l : List (ℤ × β)) (k : ℤ) (v : β) : List (ℤ × β) :=
  match l with
  | [] => [(k, v)]
  | (k2, v2) :: rest => if k2 = k then (k, v) :: rest else (k2, v2) :: assocSetD rest k v

/-- Embeds `update_daily_totals(day_utc, pnl_usd, outcome)` from `settle_round`:
`setdefault` then increment.  Returns the updated day entry (the source reads
it back into the closing record) and the updated dict. -/
def update_daily_totals (totals : List (ℤ × DailyTotals)) (day_utc : ℤ)
    (pnl_usd : ℚ) (outcome : String) : DailyTotals × List (ℤ × DailyTotals) :=
  let daily := (totals.lookup day_utc).getD {}
  let daily := { daily with closed_trades := daily.closed_trades + 1 }
  let daily :=
    if outcome = "win" then { daily with wins := daily.wins + 1 }
    else if outcome = "loss" then { daily with losses := daily.losses + 1 }
    else if outcome = "invalid" then { daily with invalid := daily.invalid + 1 }
    else daily
  let daily := { daily with realized_pnl_usd := daily.realized_pnl_usd + pnl_usd }
  (daily, assocSetD totals day_utc daily)

/-- The UTC calendar day of a timestamp, as days since the epoch.
`settle_round` keys `daily_trade_totals` by
`datetime.fromtimestamp(close_ts, tz=utc).strftime("%Y-%m-%d")`, which
partitions timestamps into the same 86400-second buckets. -/
def dayUtc (ts : ℚ) : ℤ := ⌊ts / 86400⌋

/-- The closing record (`"type": "paper_trade_closed"`) appended to the paper
log by `settle_round`.  Decision/odds metadata echoed verbatim from the open
trade is elided, as in `OpenTrade`. -/
structure ClosedRecord where
  id : String
  round_id : ℤ
  action : String
  entry_price : ℚ
  exit_price : ℚ
  entry_ts : ℚ
  exit_ts : ℚ
  btc_price_to_beat : Option ℚ
  btc_price_to_beat_source : Option String
  btc_price_at_close : ℚ
  market_outcome : String
  btc_round_open_price : Option ℚ
  btc_round_close_price : ℚ
  outcome : String
  stake_usd : ℚ
  return_pct : ℚ
  gross_return_pct : ℚ
  total_cost_pct : ℚ
  gas_fees_usd : ℚ
  adverse_selection_bps_applied : ℚ
  gross_pnl_usd : ℚ
  pnl_usd : ℚ
  day_utc : ℤ
  day_closed_trades : ℕ
  day_wins : ℕ
  day_losses : ℕ
  day_invalid : ℕ
  day_realized_pnl_usd : ℚ
  deriving DecidableEq, Repr

/-- An `agent_state.add_event(level, name, payload)` emission. -/
structure AgentEvent where
  level : String
  name : String
  deriving DecidableEq, Repr

/-- The state touched by `settle_round`: the open-trade list, the per-day
totals, the paper-trade log and the event feed. -/
structure SettleState where
  open_paper_trades : List OpenTrade
  daily_trade_totals : List (ℤ × DailyTotals)
  paper_trade_log : List ClosedRecord
  events : List AgentEvent
  deriving DecidableEq, Repr

/-- The `round_open_btc_price is None` branch of `settle_round`, one trade at
a time: non-matching trades go to `remaining`; each matching trade yields an
`invalid` zero-P&L closing record (all monetary fields are the literal `0.0`
in the source) plus a `paper_trade_closed_without_round_open` warning event.
Returns (remaining, records, events, updated totals). -/
def settleMissingOpenLoop (paper_trade_notional_usd : ℚ) (round_id : ℤ)
    (close_btc_price close_ts : ℚ) (day : ℤ) :
    List OpenTrade → List (ℤ × DailyTotals) →
    List OpenTrade × List ClosedRecord × List AgentEvent × List (ℤ × DailyTotals)
  | [], totals => ([], [], [], totals)
  | trade :: rest, totals =>
    if trade.round_id ≠ round_id then
      let step := settleMissingOpenLoop paper_trade_notional_usd round_id
        close_btc_price close_ts day rest totals
      (trade :: step.1, step.2.1, step.2.2.1, step.2.2.2)
    else
      let dailyStep := update_daily_totals totals day 0 "invalid"
      let daily := dailyStep.1
      let closing : ClosedRecord :=
        { id := trade.id
          round_id := round_id
          action := trade.action
          entry_price := trade.entry_price
          exit_price := trade.entry_price
          entry_ts := trade.entry_ts
          exit_ts := close_ts
          btc_price_to_beat := trade.btc_price_to_beat
          btc_price_to_beat_source := trade.btc_price_to_beat_source
          btc_price_at_close := close_btc_price
          market_outcome := "unknown"
          btc_round_open_price := none
          btc_round_close_price := close_btc_price
          outcome := "invalid"
          stake_usd := trade.notional_usd.getD paper_trade_notional_usd
          return_pct := 0
          gross_return_pct := 0
          total_cost_pct := 0
          gas_fees_usd := 0
          adverse_selection_bps_applied := 0
          gross_pnl_usd := 0
          pnl_usd := 0
          day_utc := day
          day_closed_trades := daily.closed_trades
          day_wins := daily.wins
          day_losses := daily.losses
          day_invalid := daily.invalid
          day_realized_pnl_usd := pyRound daily.realized_pnl_usd 4 }
      let step := settleMissingOpenLoop paper_trade_notional_usd round_id
        close_btc_price close_ts day rest dailyStep.2
      ( step.1
      , closing :: step.2.1
      , { level := "warning", name := "paper_trade_closed_without_round_open" } :: step.2.2.1
      , step.2.2.2 )

/-- The normal (round-open price available) branch of `settle_round`, one
trade at a time.  For a matching trade the source computes
`result = evaluate_paper_trade(...)` and then builds the closing dict, whose
`"gross_pnl_usd": round(result.gross_pnl_usd, 4)` entry (main.py line 593)
reads an attribute that `PaperTradeResult` does not define — an
`AttributeError` is raised before any state is mutated. -/
def settleNormalLoop (paper_trade_notional_usd : ℚ)
    (paper_simulation : PaperTradeSimulationConfig) (round_id : ℤ)
    (market_outcome : String) :
    List OpenTrade →
    Except PyError (List OpenTrade)
  | [] => .ok []
  | trade :: rest =>
    if trade.round_id ≠ round_id then
      match settleNormalLoop paper_trade_notional_usd paper_simulation round_id
        market_outcome rest with
      | .ok remaining => .ok (trade :: remaining)
      | .error e => .error e
    else
      let _result := evaluate_paper_trade trade.action trade.entry_price market_outcome
        (trade.notional_usd.getD paper_trade_notional_usd) paper_simulation
      .error (PyError.attributeError "gross_pnl_usd")

/-- Embeds `settle_round(round_id, close_btc_price, close_ts, round_open_btc_price)`
from `main.run`.  The missing-reference-price branch settles every matching
trade as `invalid` with zero P&L; the normal branch raises `AttributeError`
on the first matching trade (see `settleNormalLoop`), leaving the state
unchanged. -/
def settle_round (paper_trade_notional_usd : ℚ)
    (paper_simulation : PaperTradeSimulationConfig) (st : SettleState)
    (round_id : ℤ) (close_btc_price close_ts : ℚ)
    (round_open_btc_price : Option ℚ) : Except PyError SettleState :=
  let day := dayUtc close_ts
  match round_open_btc_price with
  | none =>
    let step := settleMissingOpenLoop paper_trade_notional_usd round_id
      close_btc_price close_ts day st.open_paper_trades st.daily_trade_totals
    .ok
      { open_paper_trades := step.1
        daily_trade_totals := step.2.2.2
        paper_trade_log := st.paper_trade_log ++ step.2.1
        events := st.events ++ step.2.2.1 }
  | some round_open =>
    let market_outcome := market_outcome_from_btc_prices round_open close_btc_price
    match settleNormalLoop paper_trade_notional_usd paper_simulation round_id
      market_outcome st.open_paper_trades with
    | .error e => .error e
    | .ok remaining =>
      .ok { st with open_paper_trades := remaining }

/-! ## main.py — the per-tick decision pipeline -/

/-- The configuration values the gate pipeline reads. -/
structure AgentConfig where
  strategy_mode : String := "classic"
  btc_updown_min_confidence_to_trade : ℚ := 7/20
  paper_min_net_edge_bps : ℚ := 0
  paper_trade_notional_usd : ℚ := 100
  paper_edge_strength_to_bps : ℚ := 1000
  round_seconds : ℤ := 900
  deriving DecidableEq, Repr

/-- The externally observable calls the claims speak about: the executor
stub, the risk-guard execution recording, and the opening of a paper trade. -/
inductive PipelineCall where
  | executeCall
  | recordExecutionCall
  | openTradeCall
  deriving DecidableEq, Repr

/-- Result of processing one routed decision: the calls made in order, the
risk-guard state afterwards, and the paper trade opened (if any). -/
structure TickPipelineResult where
  trace : List PipelineCall
  guard : RiskGuardState
  opened : Option OpenTrade
  deriving DecidableEq, Repr

/-- The gate chain `main.run` applies to one routed decision (main.py lines
768-1093): odds-alignment adjustment and confidence filter, kill-switch
check, risk guard, then `executor.execute` and
`risk_guard.record_execution`, then the net-edge gate, then the
missing-entry-price guard, then `apply_entry_execution` and the opening of
the paper trade.  Event logging and its de-duplication state are elided:
they never alter the control flow of the chain. -/
def process_tick_decision (config : AgentConfig)
    (paper_simulation : PaperTradeSimulationConfig) (limits : RiskLimits)
    (guard : RiskGuardState) (kill_switch : Bool) (round_id : ℤ)
    (close_ts now_ts : ℚ) (tick : Tick) (yes_price no_price : Option ℚ)
    (round_open_btc_price : Option ℚ) (round_open_btc_price_source : Option String)
    (new_trade_id : String) (action : String) (raw_confidence : ℚ) :
    TickPipelineResult :=
  let blockedHere : TickPipelineResult := { trace := [], guard := guard, opened := none }
  -- Odds-alignment adjustment and the confidence filter run only when both
  -- odds are numeric.
  let oddsStep : Option (Option ℚ) :=
    match yes_price, no_price with
    | some yes_value, some no_value =>
      let supports_action :=
        (action = "BUY_YES" ∧ no_value < yes_value) ∨ (action = "BUY_NO" ∧ yes_value < no_value)
      let confidence :=
        if supports_action then min 1 (raw_confidence + 1/20)
        else max 0 (raw_confidence - 2/25)
      let odds_filter_min_confidence :=
        if config.strategy_mode = "btc_updown" then config.btc_updown_min_confidence_to_trade
        else 11/20
      if confidence < odds_filter_min_confidence then none
      else some (some (pyRound confidence 4))
    | _, _ => some none
  match oddsStep with
  | none => blockedHere
  | some adjusted =>
    -- context["confidence"] is overwritten (rounded) only in the odds branch.
    let ctx_confidence := adjusted.getD raw_confidence
    let edge_strength_value : Option ℚ :=
      match yes_price, no_price with
      | some yes_value, some no_value => some |yes_value - no_value|
      | _, _ => none
    if kill_switch then blockedHere
    else
      let risk_check := RiskGuard.evaluate limits guard round_id now_ts
      if risk_check.allowed = false then blockedHere
      else
        -- executor.execute(action, context) and record_execution happen here,
        -- before the net-edge and missing-entry-price gates (main.py 915-916).
        let guard2 := RiskGuard.record_execution guard round_id now_ts
        let seconds_to_close : ℤ := ⌊max 0 (close_ts - now_ts)⌋
        let effective_slippage_bps := compute_effective_entry_slippage_bps paper_simulation
          edge_strength_value (some ctx_confidence) (some seconds_to_close)
          (some config.round_seconds)
        let expected_edge_bps := estimate_expected_edge_bps edge_strength_value
          (some ctx_confidence) config.paper_edge_strength_to_bps
        let estimated_total_cost := estimate_total_cost_bps config.paper_trade_notional_usd
          paper_simulation effective_slippage_bps
        let net_edge_blocked : Bool :=
          decide (0 < config.paper_min_net_edge_bps) &&
            (match estimated_total_cost with
             | none => true   -- cost = inf, net edge = -inf
             | some cost => decide (expected_edge_bps - cost < config.paper_min_net_edge_bps))
        if net_edge_blocked then
          { trace := [.executeCall, .recordExecutionCall], guard := guard2, opened := none }
        else
          let market_entry_reference : Option ℚ :=
            match yes_price, no_price with
            | some yes_value, some no_value =>
              if action = "BUY_YES" then some yes_value else some no_value
            | _, _ => none   -- context keys absent -> missing_polymarket_entry_price
          match market_entry_reference with
          | none =>
            { trace := [.executeCall, .recordExecutionCall], guard := guard2, opened := none }
          | some reference =>
            let executed_entry_price := apply_entry_execution action reference paper_simulation
              (some effective_slippage_bps)
            let trade : OpenTrade :=
              { id := new_trade_id
                round_id := round_id
                action := action
                entry_price := executed_entry_price
                entry_ts := tick.ts
                notional_usd := some config.paper_trade_notional_usd
                btc_price_to_beat := round_open_btc_price
                btc_price_to_beat_source := round_open_btc_price_source }
            { trace := [.executeCall, .recordExecutionCall, .openTradeCall]
              guard := guard2
              opened := some trade }

/-! ## Concrete instances used by the theorems -/

/-- The zero-cost simulation config of the spec example (and of
`test_evaluate_paper_trade_buy_yes_win`). -/
def zeroCostSimulation : PaperTradeSimulationConfig :=
  { entry_slippage_bps := 0
    gas_fee_usd_per_side := 0
    adverse_selection_bps := 0
    min_notional_usd := 1 }

/-- The costed simulation config of
`test_evaluate_paper_trade_applies_costs_and_adverse_selection`: gas 0.05
per side and 30 bps of configured adverse selection. -/
def costSim : PaperTradeSimulationConfig :=
  { entry_slippage_bps := 0
    gas_fee_usd_per_side := 1/20
    adverse_selection_bps := 30
    min_notional_usd := 1 }

/-- Modelled from the spec: the claim C9 position-size formula
`clamp(((p*b - q)/b) * kelly_fraction, 0, max_trade_size_usd)` with
`p = clamp(confidence, 0.01, 0.99)`, `q = 1 - p`,
`b = (1 - entry_price)/entry_price`.  Stated for comparison against the
source function `calculate_position_size`. -/
def kellySizeSpecFormula (confidence entry_price kelly_fraction max_trade_size_usd : ℚ) : ℚ :=
  let p := pyClamp confidence (1/100) (99/100)
  let q := 1 - p
  let b := (1 - entry_price) / entry_price
  pyClamp (((p * b) - q) / b * kelly_fraction) 0 max_trade_size_usd

/-- Whether a router decision carries the composite shadow candidate as its
payload (i.e. the candidate was fed to live trading). -/
def isShadowDecision : Option (String × DecisionPayload) → Bool
  | some (_, .shadow _) => true
  | _ => false

/-- Router configured with the composite mode and the live flag but with the
shadow-mode flag cleared. -/
def c10Router : DecisionRouter :=
  { prices := [], strategy_mode := "btc_updown", btc_updown_shadow_mode := false,
    btc_updown_live_enabled := true }

/-- A first tick for `c10Router`. -/
def c10Tick : Tick := { ts := 1, symbol := "BTCUSDT", price := 100 }

/-- Market context under which the composite strategy produces a BUY_YES
candidate: close to expiry, positive short return, strongly negative z-score,
balanced odds at 0.5, full order-book and momentum signals. -/
def c10Extra : ExtraState :=
  { seconds_to_close := some (some 0), round_seconds := some (some 900),
    return_short := some (some (1/100)), zscore := some (some (-5)),
    polymarket_yes_price := some (some (1/2)), polymarket_no_price := some (some (1/2)),
    orderbook_imbalance := some (some 1), trade_momentum := some (some 1) }

/-- The routing outcome of `c10Router` on `c10Tick` under `c10Extra` (the
`pstdev` square root is irrelevant with a single price sample). -/
def c10Decision : Option (String × DecisionPayload) :=
  (on_tick (fun _ => 0) c10Router c10Tick c10Extra).1

/-- One open trade of round 5 used to exercise `settle_round`. -/
def c8Trade : OpenTrade :=
  { id := "t1", round_id := 5, action := "BUY_YES", entry_price := 1/2,
    entry_ts := 1000, notional_usd := some 100 }

/-- A settlement state holding only `c8Trade`. -/
def c8State : SettleState :=
  { open_paper_trades := [c8Trade], daily_trade_totals := [], paper_trade_log := [],
    events := [] }

/-- The open trades that do not belong to the given round id, in order. -/
def tradesOtherRounds (round_id : ℤ) (trades : List OpenTrade) : List OpenTrade :=
  trades.filter (fun t => t.round_id != round_id)

/-- The open trades of the given round id, in order. -/
def tradesOfRound (round_id : ℤ) (trades : List OpenTrade) : List OpenTrade :=
  trades.filter (fun t => t.round_id == round_id)

/-- A pipeline run on which the net-edge gate blocks: balanced odds (edge
strength 0) and a configured minimum net edge of 10 bps, with default
simulation costs.  The routed decision is a BUY_YES at raw confidence 0.7 in
classic mode, the kill switch is off and the risk guard is fresh. -/
def c1Result : TickPipelineResult :=
  process_tick_decision
    { strategy_mode := "classic", paper_min_net_edge_bps := 10 } {} {}
    RiskGuardState.initial false 7 1800 1700
    { ts := 1700, symbol := "BTCUSDT", price := 50000 }
    (some (1/2)) (some (1/2)) (some 50000) (some "binance_klines") "trade-1"
    "BUY_YES" (7/10)

/-! ## Theorems -/

/-- Evaluation helper: the literal label `"yes"` is already normalized. -/
theorem pyStripLower_yes : pyStripLower "yes" = "yes" := rfl

/-- Evaluation helper: Python normalizes the label `"YES"` to `"yes"`. -/
theorem pyStripLower_YES : pyStripLower "YES" = "yes" := rfl

/-- C2: `evaluate_paper_trade("BUY_YES", entry_price=0.4, outcome="yes",
notional=100, zero-cost config)` settles as a win with `return_pct = 150`,
and the full result record is exactly the one shown — whose type
`PaperTradeResult` carries the fields `outcome`, `market_outcome`,
`return_pct`, `gross_return_pct`, `total_cost_pct`, `gas_fees_usd` and
`adverse_selection_bps_applied`, and in particular has **no** `gross_pnl_usd`
and no `pnl_usd` field, although the unit tests of the repository itself
(`test_paper_trading.py` lines 27-28) and `settle_round` (main.py lines
593-594) read both. -/
theorem evaluate_paper_trade_buy_yes_win_result :
    evaluate_paper_trade "BUY_YES" (2/5) "yes" 100 zeroCostSimulation =
      { outcome := "win"
        market_outcome := "yes"
        return_pct := 150
        gross_return_pct := 150
        total_cost_pct := 0
        gas_fees_usd := 0
        adverse_selection_bps_applied := 0 } := by
  norm_num +decide [evaluate_paper_trade, zeroCostSimulation, pyStripLower_yes]

/-- C3 counterexample: the label `"YES"` is not one of the literal strings
`"yes"`, `"no"`, `"push"`, yet `evaluate_paper_trade` settles it as a win
(the source compares the label only after `strip().lower()`), so the claim
"whenever the market-outcome label is not one of {yes, no, push} the result
is invalid" is false as stated. -/
theorem evaluate_paper_trade_uppercase_label_not_invalid :
    (("YES" : String) ≠ "yes" ∧ ("YES" : String) ≠ "no" ∧ ("YES" : String) ≠ "push") ∧
    (evaluate_paper_trade "BUY_YES" (2/5) "YES" 100 zeroCostSimulation).outcome = "win" := by
  constructor
  · refine ⟨?_, ?_, ?_⟩ <;> decide
  · norm_num +decide [evaluate_paper_trade, zeroCostSimulation, pyStripLower_YES]

/-- C3 (amended): `evaluate_paper_trade` is a total function (it raises on no
input), and whenever the entry price is not strictly inside (0,1), or the
notional is below the configured floor, or the outcome label — after
trimming whitespace and lowercasing, as the source does — is not one of
{yes, no, push}, the result has outcome `"invalid"` and every monetary field
of the result equal to 0. -/
theorem evaluate_paper_trade_invalid_inputs
    (action : String) (entry_price : ℚ) (market_outcome : String) (notional_usd : ℚ)
    (simulation : PaperTradeSimulationConfig)
    (h : (entry_price ≤ 0 ∨ 1 ≤ entry_price) ∨
      notional_usd < simulation.min_notional_usd ∨
      ¬ (pyStripLower market_outcome = "yes" ∨ pyStripLower market_outcome = "no" ∨
        pyStripLower market_outcome = "push")) :
    (evaluate_paper_trade action entry_price market_outcome notional_usd simulation).outcome
        = "invalid" ∧
    (evaluate_paper_trade action entry_price market_outcome notional_usd simulation).return_pct
        = 0 ∧
    (evaluate_paper_trade action entry_price market_outcome notional_usd
        simulation).gross_return_pct = 0 ∧
    (evaluate_paper_trade action entry_price market_outcome notional_usd
        simulation).total_cost_pct = 0 ∧
    (evaluate_paper_trade action entry_price market_outcome notional_usd
        simulation).gas_fees_usd = 0 ∧
    (evaluate_paper_trade action entry_price market_outcome notional_usd
        simulation).adverse_selection_bps_applied = 0 := by
  have heq : evaluate_paper_trade action entry_price market_outcome notional_usd simulation
      = invalidPaperTradeResult market_outcome := by
    rcases h with h | h | h
    · simp only [evaluate_paper_trade]
      rw [if_pos h]
    · simp only [evaluate_paper_trade]
      by_cases hc1 : entry_price ≤ 0 ∨ 1 ≤ entry_price
      · rw [if_pos hc1]
      · rw [if_neg hc1, if_pos h]
    · simp only [evaluate_paper_trade]
      by_cases hc1 : entry_price ≤ 0 ∨ 1 ≤ entry_price
      · rw [if_pos hc1]
      · rw [if_neg hc1]
        by_cases hc2 : notional_usd < simulation.min_notional_usd
        · rw [if_pos hc2]
        · rw [if_neg hc2, if_pos h]
  rw [heq]
  exact ⟨rfl, rfl, rfl, rfl, rfl, rfl⟩

/-- C3 witness: the amended theorem applied at entry price 1.0 (the own
example instance of the spec): the first invalidity condition holds and the result
is invalid with all monetary fields zero. -/
theorem evaluate_paper_trade_invalid_inputs_witness :
    ((((1:ℚ) ≤ 0 ∨ (1:ℚ) ≤ 1) ∨
        (25:ℚ) < ({} : PaperTradeSimulationConfig).min_notional_usd ∨
        ¬ (pyStripLower "yes" = "yes" ∨ pyStripLower "yes" = "no" ∨
          pyStripLower "yes" = "push"))) ∧
    ((evaluate_paper_trade "BUY_YES" 1 "yes" 25 {}).outcome = "invalid" ∧
      (evaluate_paper_trade "BUY_YES" 1 "yes" 25 {}).return_pct = 0 ∧
      (evaluate_paper_trade "BUY_YES" 1 "yes" 25 {}).gross_return_pct = 0 ∧
      (evaluate_paper_trade "BUY_YES" 1 "yes" 25 {}).total_cost_pct = 0 ∧
      (evaluate_paper_trade "BUY_YES" 1 "yes" 25 {}).gas_fees_usd = 0 ∧
      (evaluate_paper_trade "BUY_YES" 1 "yes" 25 {}).adverse_selection_bps_applied = 0) :=
  ⟨Or.inl (Or.inr le_rfl),
    evaluate_paper_trade_invalid_inputs "BUY_YES" 1 "yes" 25 {} (Or.inl (Or.inr le_rfl))⟩

/-- C5 counterexample: for BUY_NO the source computes
`max(0.0, reference_price * (1 + slippage_ratio))`, which clamps only from
below; at reference price 0.99 and 200 bps of slippage the fill is 1.0098,
outside the valid probability-price range [0,1], so the claimed "lies within
[0,1]" is false as stated. -/
theorem apply_entry_execution_buy_no_exceeds_one :
    ((0:ℚ) < 99/100 ∧ (99:ℚ)/100 < 1 ∧ (0:ℚ) ≤ 200) ∧
    apply_entry_execution "BUY_NO" (99/100) {} (some 200) = 10098/10000 ∧
    ¬ apply_entry_execution "BUY_NO" (99/100) {} (some 200) ≤ 1 := by
  have h : apply_entry_execution "BUY_NO" (99/100) {} (some 200) = 10098/10000 := by
    norm_num +decide [apply_entry_execution]
  exact ⟨by norm_num, h, by rw [h]; norm_num⟩

/-- C5 (amended): for a reference price in (0,1) and non-negative slippage,
both sides move the fill weakly away from the reference in the direction
unfavorable to the buyer (upward, since the reference is the own price of
the chosen side); the BUY_YES fill is clamped into [0,1], while the BUY_NO fill
equals `reference * (1 + slippage/10000)` — clamped only from below at 0 —
and can therefore exceed 1. -/
theorem apply_entry_execution_worsens_fill (simulation : PaperTradeSimulationConfig)
    (reference_price slippage_bps : ℚ) (h0 : 0 < reference_price)
    (h1 : reference_price < 1) (h2 : 0 ≤ slippage_bps) :
    (reference_price ≤ apply_entry_execution "BUY_YES" reference_price simulation
        (some slippage_bps) ∧
      0 ≤ apply_entry_execution "BUY_YES" reference_price simulation (some slippage_bps) ∧
      apply_entry_execution "BUY_YES" reference_price simulation (some slippage_bps) ≤ 1) ∧
    (apply_entry_execution "BUY_NO" reference_price simulation (some slippage_bps)
        = reference_price * (1 + slippage_bps / 10000) ∧
      reference_price ≤ apply_entry_execution "BUY_NO" reference_price simulation
        (some slippage_bps) ∧
      0 ≤ apply_entry_execution "BUY_NO" reference_price simulation (some slippage_bps)) := by
  have hnotle : ¬ reference_price ≤ 0 := not_le.mpr h0
  have hx : reference_price ≤ reference_price * (1 + slippage_bps / 10000) := by nlinarith
  have hx0 : 0 ≤ reference_price * (1 + slippage_bps / 10000) := by nlinarith
  have hyes : apply_entry_execution "BUY_YES" reference_price simulation (some slippage_bps)
      = min 1 (reference_price * (1 + slippage_bps / 10000)) := by
    simp [apply_entry_execution, hnotle]
  have hno : apply_entry_execution "BUY_NO" reference_price simulation (some slippage_bps)
      = max 0 (reference_price * (1 + slippage_bps / 10000)) := by
    simp [apply_entry_execution, hnotle]
  refine ⟨⟨?_, ?_, ?_⟩, ?_, ?_, ?_⟩
  · rw [hyes]; exact le_min (le_of_lt h1) hx
  · rw [hyes]; exact le_min (by norm_num) hx0
  · rw [hyes]; exact min_le_left _ _
  · rw [hno]; exact max_eq_right hx0
  · rw [hno]; exact le_trans hx (le_max_right _ _)
  · rw [hno]; exact le_max_left _ _

/-- C5 witness: the amended theorem applied at reference price 0.5 with 50
bps of slippage under the default simulation config. -/
theorem apply_entry_execution_worsens_fill_witness :
    (((0:ℚ) < 1/2) ∧ ((1:ℚ)/2 < 1) ∧ ((0:ℚ) ≤ 50)) ∧
    (((1:ℚ)/2 ≤ apply_entry_execution "BUY_YES" (1/2) {} (some 50) ∧
        0 ≤ apply_entry_execution "BUY_YES" (1/2) {} (some 50) ∧
        apply_entry_execution "BUY_YES" (1/2) {} (some 50) ≤ 1) ∧
      (apply_entry_execution "BUY_NO" (1/2) {} (some 50) = 1/2 * (1 + 50 / 10000) ∧
        (1:ℚ)/2 ≤ apply_entry_execution "BUY_NO" (1/2) {} (some 50) ∧
        0 ≤ apply_entry_execution "BUY_NO" (1/2) {} (some 50))) :=
  ⟨⟨by norm_num, by norm_num, by norm_num⟩,
    apply_entry_execution_worsens_fill {} (1/2) 50 (by norm_num) (by norm_num) (by norm_num)⟩

/-- C6 counterexample: with 30 bps of configured adverse selection (gas 0.05
per side, entry 0.8, outcome yes, notional 25) the total cost of the source is
0.4% — the gas fraction alone — not the 0.7% the claimed "gas fraction plus
the adverse-selection fraction derived from adverse_selection_bps" demands
(the source hard-codes the applied adverse-selection cost to zero; its own
test asserts `adverse_selection_bps_applied == 0.0`). -/
theorem evaluate_paper_trade_adverse_selection_not_applied :
    costSim.adverse_selection_bps = 30 ∧
    (evaluate_paper_trade "BUY_YES" (4/5) "yes" 25 costSim).total_cost_pct = 2/5 ∧
    (costSim.gas_fee_usd_per_side * 2 / 25 + costSim.adverse_selection_bps / 10000) * 100
      = 7/10 ∧
    ((2:ℚ)/5) ≠ 7/10 := by
  refine ⟨rfl, ?_, by norm_num [costSim], by norm_num⟩
  norm_num +decide [evaluate_paper_trade, costSim, pyStripLower_yes]

/-- C6 (amended): for every settlement that is not invalid, the total cost
fraction is the two-sided gas fee as a fraction of notional alone — the
adverse-selection term is hard-coded to zero regardless of the configured
`adverse_selection_bps` — and the net return equals the gross return minus
that total cost. -/
theorem evaluate_paper_trade_total_cost_gas_only
    (action : String) (entry_price : ℚ) (market_outcome : String) (notional_usd : ℚ)
    (simulation : PaperTradeSimulationConfig)
    (h : (evaluate_paper_trade action entry_price market_outcome notional_usd
      simulation).outcome ≠ "invalid") :
    (evaluate_paper_trade action entry_price market_outcome notional_usd
        simulation).total_cost_pct
      = simulation.gas_fee_usd_per_side * 2 / max notional_usd (1/1000000000) * 100 ∧
    (evaluate_paper_trade action entry_price market_outcome notional_usd simulation).return_pct
      = (evaluate_paper_trade action entry_price market_outcome notional_usd
          simulation).gross_return_pct
        - (evaluate_paper_trade action entry_price market_outcome notional_usd
            simulation).total_cost_pct ∧
    (evaluate_paper_trade action entry_price market_outcome notional_usd
        simulation).adverse_selection_bps_applied = 0 := by
  by_cases hc1 : entry_price ≤ 0 ∨ 1 ≤ entry_price
  · exact absurd (by simp only [evaluate_paper_trade]; rw [if_pos hc1]; rfl) h
  by_cases hc2 : notional_usd < simulation.min_notional_usd
  · exact absurd (by simp only [evaluate_paper_trade]; rw [if_neg hc1, if_pos hc2]; rfl) h
  by_cases hc3 : pyStripLower market_outcome = "yes" ∨ pyStripLower market_outcome = "no" ∨
    pyStripLower market_outcome = "push"
  case neg =>
    exact absurd
      (by simp only [evaluate_paper_trade]; rw [if_neg hc1, if_neg hc2, if_pos hc3]; rfl) h
  by_cases hc4 : pyStripLower market_outcome ≠ "push" ∧ action ≠ "BUY_YES" ∧ action ≠ "BUY_NO"
  · exact absurd
      (by
        simp only [evaluate_paper_trade]
        rw [if_neg hc1, if_neg hc2, if_neg (not_not_intro hc3), if_pos hc4]; rfl) h
  refine ⟨?_, ?_, ?_⟩ <;>
    · simp only [evaluate_paper_trade]
      rw [if_neg hc1, if_neg hc2, if_neg (not_not_intro hc3), if_neg hc4]
      try simp
      try ring

/-- C6 witness: the amended theorem applied to the costed-config example
(entry 0.8, outcome yes, notional 25, gas 0.05/side, 30 bps configured
adverse selection), whose settlement is a win and hence not invalid. -/
theorem evaluate_paper_trade_total_cost_gas_only_witness :
    ((evaluate_paper_trade "BUY_YES" (4/5) "yes" 25 costSim).outcome ≠ "invalid") ∧
    ((evaluate_paper_trade "BUY_YES" (4/5) "yes" 25 costSim).total_cost_pct
        = costSim.gas_fee_usd_per_side * 2 / max 25 (1/1000000000) * 100 ∧
      (evaluate_paper_trade "BUY_YES" (4/5) "yes" 25 costSim).return_pct
        = (evaluate_paper_trade "BUY_YES" (4/5) "yes" 25 costSim).gross_return_pct
          - (evaluate_paper_trade "BUY_YES" (4/5) "yes" 25 costSim).total_cost_pct ∧
      (evaluate_paper_trade "BUY_YES" (4/5) "yes" 25
          costSim).adverse_selection_bps_applied = 0) := by
  have h : (evaluate_paper_trade "BUY_YES" (4/5) "yes" 25 costSim).outcome = "win" := by
    norm_num +decide [evaluate_paper_trade, costSim, pyStripLower_yes]
  have hne : (evaluate_paper_trade "BUY_YES" (4/5) "yes" 25 costSim).outcome ≠ "invalid" := by
    rw [h]; decide
  exact ⟨hne, evaluate_paper_trade_total_cost_gas_only "BUY_YES" (4/5) "yes" 25 costSim hne⟩

/-- C7: behaviour of `RiskGuard.evaluate`.  (1) A fresh guard allows the
first call for any round when the cap is positive.  (2) After
`record_execution`, any call strictly less than the cooldown interval later
is denied with the `trade_cooldown:<remaining>s` reason carrying the
remaining seconds.  (3) Once the recorded-execution counter of a round has
reached `max_trades_per_round`, calls for that round are denied with reason
`max_trades_per_round` even when the cooldown has elapsed (or no execution
was ever recorded).  (4) Otherwise the call is allowed. -/
theorem riskGuard_gate_behaviour :
    (∀ (limits : RiskLimits) (round_id : ℤ) (now_ts : ℚ),
      0 < limits.max_trades_per_round →
      RiskGuard.evaluate limits RiskGuardState.initial round_id now_ts
        = { allowed := true, reason := .ok }) ∧
    (∀ (limits : RiskLimits) (st : RiskGuardState) (rid rid2 : ℤ) (now now2 : ℚ),
      now2 - now < limits.trade_cooldown_seconds →
      RiskGuard.evaluate limits (RiskGuard.record_execution st rid now) rid2 now2
        = { allowed := false,
            reason := .trade_cooldown
              (pyRound (limits.trade_cooldown_seconds - (now2 - now)) 2) }) ∧
    (∀ (limits : RiskLimits) (st : RiskGuardState) (round_id : ℤ) (now_ts : ℚ),
      (∀ t, st.last_trade_ts = some t → limits.trade_cooldown_seconds ≤ now_ts - t) →
      limits.max_trades_per_round ≤ (st.countFor round_id : ℤ) →
      RiskGuard.evaluate limits st round_id now_ts
        = { allowed := false, reason := .maxTradesPerRound }) ∧
    (∀ (limits : RiskLimits) (st : RiskGuardState) (round_id : ℤ) (now_ts : ℚ),
      (∀ t, st.last_trade_ts = some t → limits.trade_cooldown_seconds ≤ now_ts - t) →
      (st.countFor round_id : ℤ) < limits.max_trades_per_round →
      RiskGuard.evaluate limits st round_id now_ts = { allowed := true, reason := .ok }) := by
  refine ⟨?_, ?_, ?_, ?_⟩
  · intro limits round_id now_ts h
    simp only [RiskGuard.evaluate, RiskGuardState.initial, RiskGuardState.countFor,
      List.lookup]
    rw [if_neg (by omega)]
  · intro limits st rid rid2 now now2 h
    simp only [RiskGuard.evaluate, RiskGuard.record_execution]
    rw [if_pos h]
  · intro limits st round_id now_ts hcool hcount
    rcases hlast : st.last_trade_ts with _ | t
    · simp only [RiskGuard.evaluate, hlast]
      rw [if_pos hcount]
    · have hc := hcool t hlast
      simp only [RiskGuard.evaluate, hlast]
      rw [if_neg (not_lt.mpr (by linarith))]
      rw [if_pos hcount]
  · intro limits st round_id now_ts hcool hcount
    rcases hlast : st.last_trade_ts with _ | t
    · simp only [RiskGuard.evaluate, hlast]
      rw [if_neg (not_le.mpr hcount)]
    · have hc := hcool t hlast
      simp only [RiskGuard.evaluate, hlast]
      rw [if_neg (not_lt.mpr (by linarith))]
      rw [if_neg (not_le.mpr hcount)]

/-- C7 witness: the four parts applied at concrete guards with the default
limits (cap 2, cooldown 8s): a fresh guard allows; 3 seconds after a
recorded execution the call is denied with 5.00s of cooldown remaining; a
round already at the cap is denied with `max_trades_per_round` 100 seconds
after the last execution; a round below the cap is then allowed. -/
theorem riskGuard_gate_behaviour_witness :
    ((0:ℤ) < ({} : RiskLimits).max_trades_per_round ∧
      RiskGuard.evaluate {} RiskGuardState.initial 5 1000
        = { allowed := true, reason := .ok }) ∧
    ((1003:ℚ) - 1000 < ({} : RiskLimits).trade_cooldown_seconds ∧
      RiskGuard.evaluate {} (RiskGuard.record_execution RiskGuardState.initial 5 1000) 5 1003
        = { allowed := false,
            reason := .trade_cooldown
              (pyRound (({} : RiskLimits).trade_cooldown_seconds - (1003 - 1000)) 2) }) ∧
    (({} : RiskLimits).max_trades_per_round
        ≤ (({ trade_count_by_round := [(5, 2)], last_trade_ts := some 0 } :
            RiskGuardState).countFor 5 : ℤ) ∧
      RiskGuard.evaluate {} { trade_count_by_round := [(5, 2)], last_trade_ts := some 0 } 5 100
        = { allowed := false, reason := .maxTradesPerRound }) ∧
    ((({ trade_count_by_round := [(5, 1)], last_trade_ts := some 0 } :
          RiskGuardState).countFor 5 : ℤ) < ({} : RiskLimits).max_trades_per_round ∧
      RiskGuard.evaluate {} { trade_count_by_round := [(5, 1)], last_trade_ts := some 0 } 5 100
        = { allowed := true, reason := .ok }) := by
  refine ⟨⟨by norm_num, ?_⟩, ⟨by norm_num, ?_⟩, ⟨?_, ?_⟩, ⟨?_, ?_⟩⟩
  · exact riskGuard_gate_behaviour.1 {} 5 1000 (by norm_num)
  · exact riskGuard_gate_behaviour.2.1 {} RiskGuardState.initial 5 5 1000 1003 (by norm_num)
  · norm_num [RiskGuardState.countFor, List.lookup]
  · exact riskGuard_gate_behaviour.2.2.1 {} _ 5 100
      (by intro t ht; cases ht; norm_num)
      (by norm_num [RiskGuardState.countFor, List.lookup])
  · norm_num [RiskGuardState.countFor, List.lookup]
  · exact riskGuard_gate_behaviour.2.2.2 {} _ 5 100
      (by intro t ht; cases ht; norm_num)
      (by norm_num [RiskGuardState.countFor, List.lookup])

/-- C9 counterexample: at confidence 0.9, entry price 0.5, kelly_fraction
0.3, max_trade_size_usd 100 (the defaults), the source returns 24 USD — the
Kelly fraction is scaled by the maximum trade size — while the claimed
formula `clamp(((p*b - q)/b) * 0.3, 0, 100)` evaluates to 0.24, so the claim
is false as stated. -/
theorem calculate_position_size_not_bare_kelly :
    calculate_position_size {} (9/10) (1/2) = 24 ∧
    kellySizeSpecFormula (9/10) (1/2) (3/10) 100 = 6/25 ∧
    (24:ℚ) ≠ 6/25 := by
  refine ⟨?_, ?_, by norm_num⟩
  · norm_num [calculate_position_size, pyClamp]
  · norm_num [kellySizeSpecFormula, pyClamp]

/-- C9 (amended): for every entry price in (0,1) the position size equals
`min(max_trade_size_usd, max(0, (p*b - q)/b) * kelly_fraction *
max_trade_size_usd)` with `p = clamp(confidence, 0.01, 0.99)`, `q = 1-p`,
`b = (1-entry_price)/entry_price` — the Kelly fraction is scaled into
dollars by `max_trade_size_usd` and capped there (at the claimed instance
this gives 24, not `clamp(raw*0.3, 0, 100) = 0.24`) — and, holding the entry
price fixed, the size is monotonically non-decreasing in the confidence. -/
theorem calculate_position_size_scaled_kelly :
    (∀ (config : BTCUpdownConfig) (confidence entry_price : ℚ),
      0 < entry_price → entry_price < 1 →
      calculate_position_size config confidence entry_price
        = min config.max_trade_size_usd
            (max 0 ((pyClamp confidence (1/100) (99/100) * ((1 - entry_price) / entry_price)
                  - (1 - pyClamp confidence (1/100) (99/100)))
                / ((1 - entry_price) / entry_price))
              * config.kelly_fraction * config.max_trade_size_usd)) ∧
    (∀ (config : BTCUpdownConfig) (entry_price c1 c2 : ℚ),
      0 < entry_price → entry_price < 1 → 0 ≤ config.kelly_fraction →
      0 ≤ config.max_trade_size_usd → c1 ≤ c2 →
      calculate_position_size config c1 entry_price
        ≤ calculate_position_size config c2 entry_price) := by
  have hformula : ∀ (config : BTCUpdownConfig) (confidence entry_price : ℚ),
      0 < entry_price → entry_price < 1 →
      calculate_position_size config confidence entry_price
        = min config.max_trade_size_usd
            (max 0 ((pyClamp confidence (1/100) (99/100) * ((1 - entry_price) / entry_price)
                  - (1 - pyClamp confidence (1/100) (99/100)))
                / ((1 - entry_price) / entry_price))
              * config.kelly_fraction * config.max_trade_size_usd) := by
    intro config confidence entry_price h0 h1
    have hb : 0 < (1 - entry_price) / entry_price := div_pos (by linarith) h0
    simp only [calculate_position_size]
    rw [if_neg (by push_neg; exact ⟨h0, h1⟩), if_neg (not_le.mpr hb)]
  refine ⟨hformula, ?_⟩
  intro config entry_price c1 c2 h0 h1 hkf hmax hc
  rw [hformula config c1 entry_price h0 h1, hformula config c2 entry_price h0 h1]
  have hb : 0 < (1 - entry_price) / entry_price := div_pos (by linarith) h0
  have hp : pyClamp c1 (1/100) (99/100) ≤ pyClamp c2 (1/100) (99/100) :=
    max_le_max le_rfl (min_le_min le_rfl hc)
  have hraw :
      (pyClamp c1 (1/100) (99/100) * ((1 - entry_price) / entry_price)
          - (1 - pyClamp c1 (1/100) (99/100))) / ((1 - entry_price) / entry_price)
        ≤ (pyClamp c2 (1/100) (99/100) * ((1 - entry_price) / entry_price)
            - (1 - pyClamp c2 (1/100) (99/100))) / ((1 - entry_price) / entry_price) := by
    apply (div_le_div_iff_of_pos_right hb).mpr
    nlinarith [hp, hb]
  exact min_le_min le_rfl
    (mul_le_mul_of_nonneg_right
      (mul_le_mul_of_nonneg_right (max_le_max le_rfl hraw) hkf) hmax)

/-- C9 witness: the amended theorem applied at the claimed instance
(confidence 0.9, entry 0.5, default config) and at the confidence pair
0.6 ≤ 0.9. -/
theorem calculate_position_size_scaled_kelly_witness :
    (((0:ℚ) < 1/2) ∧ ((1:ℚ)/2 < 1) ∧ ((0:ℚ) ≤ ({} : BTCUpdownConfig).kelly_fraction) ∧
      ((0:ℚ) ≤ ({} : BTCUpdownConfig).max_trade_size_usd) ∧ ((3:ℚ)/5 ≤ 9/10)) ∧
    calculate_position_size {} (9/10) (1/2)
      = min ({} : BTCUpdownConfig).max_trade_size_usd
          (max 0 ((pyClamp (9/10) (1/100) (99/100) * ((1 - 1/2) / (1/2))
                - (1 - pyClamp (9/10) (1/100) (99/100)))
              / ((1 - 1/2) / (1/2)))
            * ({} : BTCUpdownConfig).kelly_fraction
            * ({} : BTCUpdownConfig).max_trade_size_usd) ∧
    calculate_position_size {} (3/5) (1/2) ≤ calculate_position_size {} (9/10) (1/2) := by
  refine ⟨⟨by norm_num, by norm_num, by norm_num, by norm_num, by norm_num⟩, ?_, ?_⟩
  · exact calculate_position_size_scaled_kelly.1 {} (9/10) (1/2) (by norm_num) (by norm_num)
  · exact calculate_position_size_scaled_kelly.2 {} (1/2) (3/5) (9/10) (by norm_num)
      (by norm_num) (by norm_num) (by norm_num) (by norm_num)

set_option maxHeartbeats 2000000 in
/-- C1: on a tick where the net-edge gate blocks the trade (`c1Result`),
the executor has already been invoked and the risk guard has already
recorded an execution — the source calls `executor.execute` and
`risk_guard.record_execution` (main.py lines 915-916) after the kill-switch
and risk-guard checks but before the net-edge gate and the
missing-entry-price guard — and no paper trade is opened, contradicting the
claim that both calls happen only after every admission gate passes and a
trade is actually opened. -/
theorem pipeline_executes_before_trade_open_gates :
    c1Result.trace = [PipelineCall.executeCall, PipelineCall.recordExecutionCall] ∧
    c1Result.opened = none ∧
    c1Result.guard = { trade_count_by_round := [(7, 1)], last_trade_ts := some 1700 } := by
  norm_num +decide [c1Result, process_tick_decision, RiskGuard.evaluate,
    RiskGuard.record_execution, RiskGuardState.initial, RiskGuardState.countFor, assocSet,
    List.lookup, pyRound, compute_effective_entry_slippage_bps, estimate_expected_edge_bps,
    estimate_total_cost_bps, apply_entry_execution]

/-- Helper: the missing-reference-price settlement loop keeps exactly the
trades of other rounds (in order), emits one invalid zero-P&L record and one
distinct warning event per trade of the settled round. -/
theorem settleMissingOpenLoop_spec (n : ℚ) (rid : ℤ) (p ts : ℚ) (day : ℤ) :
    ∀ (trades : List OpenTrade) (totals : List (ℤ × DailyTotals)),
      (settleMissingOpenLoop n rid p ts day trades totals).1 = tradesOtherRounds rid trades ∧
      (settleMissingOpenLoop n rid p ts day trades totals).2.1.length
        = (tradesOfRound rid trades).length ∧
      (∀ r ∈ (settleMissingOpenLoop n rid p ts day trades totals).2.1,
        r.round_id = rid ∧ r.outcome = "invalid" ∧ r.market_outcome = "unknown" ∧
        r.return_pct = 0 ∧ r.pnl_usd = 0 ∧ r.gross_pnl_usd = 0 ∧ r.gross_return_pct = 0 ∧
        r.total_cost_pct = 0 ∧ r.gas_fees_usd = 0) ∧
      (∀ e ∈ (settleMissingOpenLoop n rid p ts day trades totals).2.2.1,
        e = { level := "warning", name := "paper_trade_closed_without_round_open" }) := by
  intro trades
  induction trades with
  | nil =>
    intro totals
    simp [settleMissingOpenLoop, tradesOtherRounds, tradesOfRound]
  | cons t rest ih =>
    intro totals
    by_cases h : t.round_id = rid
    · have hne : ¬ t.round_id ≠ rid := not_not_intro h
      obtain ⟨ih1, ih2, ih3, ih4⟩ := ih (update_daily_totals totals day 0 "invalid").2
      refine ⟨?_, ?_, ?_, ?_⟩
      · simp only [settleMissingOpenLoop, if_neg hne]
        simpa [tradesOtherRounds, h] using ih1
      · simp only [settleMissingOpenLoop, if_neg hne]
        simpa [tradesOfRound, h] using ih2
      · simp only [settleMissingOpenLoop, if_neg hne]
        intro r hr
        rcases List.mem_cons.mp hr with hr | hr
        · subst hr; exact ⟨rfl, rfl, rfl, rfl, rfl, rfl, rfl, rfl, rfl⟩
        · exact ih3 r hr
      · simp only [settleMissingOpenLoop, if_neg hne]
        intro e he
        rcases List.mem_cons.mp he with he | he
        · exact he
        · exact ih4 e he
    · obtain ⟨ih1, ih2, ih3, ih4⟩ := ih totals
      refine ⟨?_, ?_, ?_, ?_⟩
      · simp only [settleMissingOpenLoop, if_pos h]
        simpa [tradesOtherRounds, h] using congrArg (List.cons t) ih1
      · simp only [settleMissingOpenLoop, if_pos h]
        simpa [tradesOfRound, h] using ih2
      · simp only [settleMissingOpenLoop, if_pos h]
        exact ih3
      · simp only [settleMissingOpenLoop, if_pos h]
        exact ih4

/-- C4: when no round-open reference price is available at close,
`settle_round` succeeds and (i) the remaining open trades are exactly the
trades of other round ids, unchanged and in order, (ii) one closing record
per trade of the settled round is appended to the log, each with outcome
`"invalid"`, `return_pct = 0` and `pnl_usd = 0`, and (iii) each such close
is announced by a `warning`/`paper_trade_closed_without_round_open` event —
distinct from the `paper_trade_closed` event of a normal close. -/
theorem settle_round_missing_reference_price (n : ℚ)
    (sim : PaperTradeSimulationConfig) (st : SettleState) (rid : ℤ) (p ts : ℚ) :
    ∃ (recs : List ClosedRecord) (evs : List AgentEvent)
      (totals2 : List (ℤ × DailyTotals)),
      settle_round n sim st rid p ts none = .ok
        { open_paper_trades := tradesOtherRounds rid st.open_paper_trades
          daily_trade_totals := totals2
          paper_trade_log := st.paper_trade_log ++ recs
          events := st.events ++ evs } ∧
      recs.length = (tradesOfRound rid st.open_paper_trades).length ∧
      (∀ r ∈ recs, r.round_id = rid ∧ r.outcome = "invalid" ∧ r.return_pct = 0 ∧
        r.pnl_usd = 0 ∧ r.gross_pnl_usd = 0) ∧
      (∀ e ∈ evs, e.level = "warning" ∧ e.name = "paper_trade_closed_without_round_open") ∧
      ("paper_trade_closed_without_round_open" : String) ≠ "paper_trade_closed" := by
  obtain ⟨h1, h2, h3, h4⟩ := settleMissingOpenLoop_spec n rid p ts (dayUtc ts)
    st.open_paper_trades st.daily_trade_totals
  refine ⟨(settleMissingOpenLoop n rid p ts (dayUtc ts) st.open_paper_trades
      st.daily_trade_totals).2.1,
    (settleMissingOpenLoop n rid p ts (dayUtc ts) st.open_paper_trades
      st.daily_trade_totals).2.2.1,
    (settleMissingOpenLoop n rid p ts (dayUtc ts) st.open_paper_trades
      st.daily_trade_totals).2.2.2, ?_, h2, ?_, ?_, by decide⟩
  · simp [settle_round, h1]
  · intro r hr
    obtain ⟨hrid, hout, _, hret, hpnl, hgpnl, _, _, _⟩ := h3 r hr
    exact ⟨hrid, hout, hret, hpnl, hgpnl⟩
  · intro e he
    rw [h4 e he]
    exact ⟨rfl, rfl⟩

/-- C4 witness: the theorem applied to a state holding one trade of round 5
and one of round 6, settling round 5 at close price 101, close ts 2000. -/
theorem settle_round_missing_reference_price_witness :
    ∃ (recs : List ClosedRecord) (evs : List AgentEvent)
      (totals2 : List (ℤ × DailyTotals)),
      settle_round 100 {}
          { open_paper_trades := [c8Trade, { c8Trade with id := "t2", round_id := 6 }],
            daily_trade_totals := [], paper_trade_log := [], events := [] }
          5 101 2000 none = .ok
        { open_paper_trades :=
            tradesOtherRounds 5 [c8Trade, { c8Trade with id := "t2", round_id := 6 }]
          daily_trade_totals := totals2
          paper_trade_log := [] ++ recs
          events := [] ++ evs } ∧
      recs.length
        = (tradesOfRound 5 [c8Trade, { c8Trade with id := "t2", round_id := 6 }]).length ∧
      (∀ r ∈ recs, r.round_id = 5 ∧ r.outcome = "invalid" ∧ r.return_pct = 0 ∧
        r.pnl_usd = 0 ∧ r.gross_pnl_usd = 0) ∧
      (∀ e ∈ evs, e.level = "warning" ∧ e.name = "paper_trade_closed_without_round_open") ∧
      ("paper_trade_closed_without_round_open" : String) ≠ "paper_trade_closed" :=
  settle_round_missing_reference_price 100 {}
    { open_paper_trades := [c8Trade, { c8Trade with id := "t2", round_id := 6 }],
      daily_trade_totals := [], paper_trade_log := [], events := [] } 5 101 2000

/-- C8: with a round-open reference price available and an open trade of the
settled round, `settle_round` raises `AttributeError` — the closing dict
reads `result.gross_pnl_usd` (main.py line 593) from a `PaperTradeResult`
that defines no such field — so settlement never completes on the normal
path: the open-trade list is not cleared, no records are emitted and no
aggregates are updated, and the idempotence the claim describes cannot be
reached. -/
theorem settle_round_normal_branch_raises :
    c8State.open_paper_trades = [c8Trade] ∧
    c8Trade.round_id = 5 ∧
    settle_round 100 {} c8State 5 101 2000 (some 100)
      = .error (PyError.attributeError "gross_pnl_usd") := by
  refine ⟨rfl, rfl, ?_⟩
  norm_num +decide [settle_round, settleNormalLoop, market_outcome_from_btc_prices,
    c8State, c8Trade]

/-- The shadow candidate the composite strategy produces for `c10Router` on
`c10Tick` under `c10Extra`. -/
def c10Candidate : ShadowCandidate :=
  { strategy := "btc_updown"
    action := "BUY_YES"
    confidence := 79/80
    score := 81/100
    price := some (1/2)
    size_usd := 117/4
    reason := "composite_signal"
    signals :=
      [ ("time_decay",
          { score := 4/5, confidence := 4/5, reason := "time_decay_active" })
      , ("orderbook_imbalance",
          { score := 1, confidence := 4/5, reason := "orderbook_imbalance" })
      , ("trade_momentum",
          { score := 1, confidence := 17/20, reason := "trade_momentum" })
      , ("btc_price_movement",
          { score := 1/2, confidence := 19/20, reason := "btc_price_movement" })
      , ("price_inefficiency",
          { score := 1, confidence := 19/20, reason := "price_inefficiency" })
      , ("feed_comparison",
          { score := 0, confidence := 1/5, reason := "single_feed_mode",
            available := false }) ] }

/-- The feature state `DecisionRouter.on_tick` hands to the composite
strategy on the `c10` inputs: one price sample (so no built return/z-score)
overridden by `c10Extra`. -/
def c10State : StrategyState :=
  { last_price := some 100
    return_short := some (1/100)
    zscore := some (-5)
    seconds_to_close := some 0
    round_seconds := some 900
    polymarket_yes_price := some (1/2)
    polymarket_no_price := some (1/2)
    orderbook_imbalance := some 1
    trade_momentum := some 1
    feed_divergence_bps := none }

/-- Helper evaluation: the built-and-merged state of the `c10` inputs. -/
theorem c10_state_eq :
    mergeState
        (build_state (fun _ => 0) (dequeAppend 240 c10Router.prices c10Tick.price) c10Tick)
        c10Extra
      = c10State := by
  norm_num [mergeState, mergeField, build_state, dequeAppend, c10Router, c10Tick,
    c10Extra, c10State]

/-- Helper evaluation: the six weighted signals on `c10State`. -/
theorem c10_signals_eq :
    weightedSignals {} c10State =
      [ ("time_decay", 1/5,
          { score := 4/5, confidence := 4/5, reason := "time_decay_active" })
      , ("orderbook_imbalance", 1/5,
          { score := 1, confidence := 4/5, reason := "orderbook_imbalance" })
      , ("trade_momentum", 3/20,
          { score := 1, confidence := 17/20, reason := "trade_momentum" })
      , ("btc_price_movement", 1/5,
          { score := 1/2, confidence := 19/20, reason := "btc_price_movement" })
      , ("price_inefficiency", 1/5,
          { score := 1, confidence := 19/20, reason := "price_inefficiency" })
      , ("feed_comparison", 1/20,
          { score := 0, confidence := 1/5, reason := "single_feed_mode",
            available := false }) ] := by
  norm_num [weightedSignals, signal_time_decay, signal_orderbook_imbalance,
    signal_trade_momentum, signal_btc_price_movement, signal_price_inefficiency,
    signal_feed_comparison, pyClamp, c10State, abs_of_pos, abs_of_nonneg]

/-- Helper evaluation: the composite score/confidence on `c10State`. -/
theorem c10_composite_eq : calculate_composite {} c10State = (81/100, 79/80) := by
  simp only [calculate_composite, c10_signals_eq]
  norm_num [pyClamp]

/-- Helper evaluation: the Kelly-sized position at the composite confidence
79/80 and entry price 1/2. -/
theorem c10_size_eq : calculate_position_size {} (79/80) (1/2) = 117/4 := by
  norm_num [calculate_position_size, pyClamp]

/-- Helper evaluation: on the `c10` inputs the composite strategy produces
`c10Candidate` (and appends its action to the trailing-action deque). -/
theorem c10_evaluate_shadow_eq :
    evaluate_shadow {} [] c10State = (some c10Candidate, ["BUY_YES"]) := by
  simp only [evaluate_shadow, c10_composite_eq, c10_signals_eq, buy_no_share]
  norm_num [pyRound, pyClamp, c10_size_eq, c10Candidate, c10State, dequeAppend,
    abs_of_pos, abs_of_nonneg]

/-- C10 counterexample: with `strategy_mode = "btc_updown"`, the live-enable
flag set and the shadow-mode flag cleared, `on_tick` still returns the
composite candidate as its live decision — the source gates the live return
on `strategy_mode == "btc_updown" and btc_updown_live_enabled` only, so the
claimed "both the shadow-mode flag and the live-enable flag" is false as
stated. -/
theorem router_feeds_live_without_shadow_flag :
    c10Router.btc_updown_shadow_mode = false ∧
    c10Router.btc_updown_live_enabled = true ∧
    c10Decision = some ("BUY_YES", DecisionPayload.shadow c10Candidate) ∧
    isShadowDecision c10Decision = true := by
  have hdec : c10Decision = some ("BUY_YES", DecisionPayload.shadow c10Candidate) := by
    simp only [c10Decision, on_tick]
    rw [if_pos (Or.inr (show c10Router.strategy_mode = "btc_updown" by rfl))]
    rw [c10_state_eq]
    simp only [show c10Router.btc_updown_config = {} from rfl,
      show c10Router.btc_recent_actions = ([] : List String) from rfl]
    rw [c10_evaluate_shadow_eq]
    simp [c10Router, c10Candidate]
  refine ⟨rfl, rfl, hdec, ?_⟩
  rw [hdec]
  rfl

/-- Helper: the classic strategy loop only ever returns a momentum or
mean-reversion payload, never the composite shadow candidate. -/
theorem classicDecision_not_shadow (state : StrategyState) (tick : Tick) (a : String)
    (c : ShadowCandidate) :
    classicDecision state tick ≠ some (a, DecisionPayload.shadow c) := by
  simp only [classicDecision]
  rcases hM : MomentumStrategy.evaluate state with _ | d
  · rcases hR : MeanReversionStrategy.evaluate state with _ | d <;> simp
  · simp

/-- C10 (amended): the router feeds the composite candidate into live
trading exactly when the strategy mode is `btc_updown` and the live-enable
flag is set — the shadow-mode flag is not required.  (1) In btc_updown mode
with the live flag cleared, `on_tick` returns nothing.  (2) Outside
btc_updown mode the returned decision is never the composite candidate (the
composite evaluation is logging-only).  (3) In btc_updown mode with the live
flag set, a produced candidate is returned as the decision. -/
theorem router_composite_live_routing :
    (∀ (sqrtQ : ℚ → ℚ) (r : DecisionRouter) (tick : Tick) (extra : ExtraState),
      r.strategy_mode = "btc_updown" → r.btc_updown_live_enabled = false →
      (on_tick sqrtQ r tick extra).1 = none) ∧
    (∀ (sqrtQ : ℚ → ℚ) (r : DecisionRouter) (tick : Tick) (extra : ExtraState),
      r.strategy_mode ≠ "btc_updown" →
      ∀ (a : String) (c : ShadowCandidate),
      (on_tick sqrtQ r tick extra).1 ≠ some (a, DecisionPayload.shadow c)) ∧
    (∀ (sqrtQ : ℚ → ℚ) (r : DecisionRouter) (tick : Tick) (extra : ExtraState)
      (c : ShadowCandidate),
      r.strategy_mode = "btc_updown" → r.btc_updown_live_enabled = true →
      (evaluate_shadow r.btc_updown_config r.btc_recent_actions
        (mergeState (build_state sqrtQ (dequeAppend 240 r.prices tick.price) tick)
          extra)).1 = some c →
      (on_tick sqrtQ r tick extra).1 = some (c.action, DecisionPayload.shadow c)) := by
  refine ⟨?_, ?_, ?_⟩
  · intro sqrtQ r tick extra hmode hlive
    simp only [on_tick]
    rw [if_pos (Or.inr hmode)]
    rcases hE : (evaluate_shadow r.btc_updown_config r.btc_recent_actions
        (mergeState (build_state sqrtQ (dequeAppend 240 r.prices tick.price) tick)
          extra)).1 with _ | c
    · simp [hE, hmode]
    · simp [hE, hmode, hlive]
  · intro sqrtQ r tick extra hmode a c
    simp only [on_tick]
    by_cases hcond : r.btc_updown_shadow_mode = true ∨ r.strategy_mode = "btc_updown"
    · rw [if_pos hcond]
      rcases hE : (evaluate_shadow r.btc_updown_config r.btc_recent_actions
          (mergeState (build_state sqrtQ (dequeAppend 240 r.prices tick.price) tick)
            extra)).1 with _ | cand
      · simp only [hE, hmode]
        simp [hmode]
        exact classicDecision_not_shadow _ _ a c
      · simp only [hE, hmode]
        simp [hmode]
        exact classicDecision_not_shadow _ _ a c
    · rw [if_neg hcond]
      simp [hmode]
      exact classicDecision_not_shadow _ _ a c
  · intro sqrtQ r tick extra c hmode hlive hshadow
    simp only [on_tick]
    rw [if_pos (Or.inr hmode)]
    rw [hshadow]
    simp [hmode, hlive]

/-- C10 witness: the amended theorem applied (1) to `c10Router` with the
live flag cleared, (2) to the default (classic-mode) router, and (3) to
`c10Router` itself with its produced candidate `c10Candidate`. -/
theorem router_composite_live_routing_witness :
    (({ c10Router with btc_updown_live_enabled := false } :
        DecisionRouter).strategy_mode = "btc_updown" ∧
      ({ c10Router with btc_updown_live_enabled := false } :
        DecisionRouter).btc_updown_live_enabled = false ∧
      (on_tick (fun _ => 0) { c10Router with btc_updown_live_enabled := false }
        c10Tick c10Extra).1 = none) ∧
    (({} : DecisionRouter).strategy_mode ≠ "btc_updown" ∧
      (∀ (a : String) (c : ShadowCandidate),
        (on_tick (fun _ => 0) {} c10Tick c10Extra).1
          ≠ some (a, DecisionPayload.shadow c))) ∧
    (c10Router.strategy_mode = "btc_updown" ∧
      c10Router.btc_updown_live_enabled = true ∧
      (on_tick (fun _ => 0) c10Router c10Tick c10Extra).1
        = some (c10Candidate.action, DecisionPayload.shadow c10Candidate)) := by
  have hshadow : (evaluate_shadow c10Router.btc_updown_config c10Router.btc_recent_actions
      (mergeState
        (build_state (fun _ => 0) (dequeAppend 240 c10Router.prices c10Tick.price) c10Tick)
        c10Extra)).1 = some c10Candidate := by
    rw [c10_state_eq]
    show (evaluate_shadow {} [] c10State).1 = some c10Candidate
    rw [c10_evaluate_shadow_eq]
  have hshadow2 : (evaluate_shadow
      ({ c10Router with btc_updown_live_enabled := false } :
        DecisionRouter).btc_updown_config
      ({ c10Router with btc_updown_live_enabled := false } :
        DecisionRouter).btc_recent_actions
      (mergeState
        (build_state (fun _ => 0)
          (dequeAppend 240
            ({ c10Router with btc_updown_live_enabled := false } :
              DecisionRouter).prices c10Tick.price) c10Tick)
        c10Extra)).1 = some c10Candidate := hshadow
  refine ⟨⟨rfl, rfl, ?_⟩, ⟨by decide, ?_⟩, ⟨rfl, rfl, ?_⟩⟩
  · exact router_composite_live_routing.1 (fun _ => 0)
      { c10Router with btc_updown_live_enabled := false } c10Tick c10Extra rfl rfl
  · intro a c
    exact router_composite_live_routing.2.1 (fun _ => 0) {} c10Tick c10Extra
      (by decide) a c
  · exact router_composite_live_routing.2.2 (fun _ => 0) c10Router c10Tick c10Extra
      c10Candidate rfl rfl hshadow
